import Mathlib

/-!
Verification of the secret-annotator credential-capability reconciler
(`pkg/controller/secretannotator/secretannotator_controller.go`).

The Go reconciler is shallowly embedded as a pure function over an
environment of external collaborators (object fetch, infrastructure-name
lookup, AWS client construction, the two capability probes, and the
object update).  Besides its `Except` result, the embedded reconciler
returns the ordered trace of collaborator calls it performed, so that
claims about which collaborators run (and how often) can be stated
directly.
-/

/-- Go `[]byte`: an opaque byte string. -/
abbrev Bytes := List UInt8

/-- Go errors.  `base` is an error produced by a collaborator;
`wrap ctx e` is `fmt.Errorf("<ctx>: %v", e)` — a new error whose message
carries the context string and the wrapped error's message. -/
inductive GoErr where
  | base : String → GoErr
  | wrap : String → GoErr → GoErr
deriving DecidableEq, Repr

/-- Whether the error `e` is, or (transitively) wraps, the error `e0`. -/
def GoErr.contains : GoErr → GoErr → Bool
  | .base s, e0 => GoErr.base s == e0
  | .wrap s e, e0 => GoErr.wrap s e == e0 || e.contains e0

/-- `credentials.Value` from the AWS SDK: the two credential fields
handed to the client builder (`secretannotator_controller.go:173-176`). -/
structure CredValue where
  accessKeyID : Bytes
  secretAccessKey : Bytes
deriving DecidableEq, Repr

/-- The part of a Kubernetes object's metadata the controller reads:
`GetNamespace()` / `GetName()` (field `nsp` stands for the Go
`namespace`, a reserved word in Lean). -/
structure ObjectMeta where
  nsp : String
  name : String
deriving DecidableEq, Repr

/-- `corev1.Secret` as used by the controller: object meta, the
`Data` byte-map, and the annotation string-map.  A Go `nil` annotation
map is `none`; the data map is an association list (Go maps have unique
keys; lookup takes the first match). -/
structure Secret where
  nsp : String
  name : String
  data : List (String × Bytes)
  annot : Option (List (String × String))
deriving DecidableEq, Repr

/-- Go map read with ok-flag: `v, ok := m[k]`. -/
def lookupKV {α : Type} : List (String × α) → String → Option α
  | [], _ => none
  | (k', v') :: rest, k => if k' = k then some v' else lookupKV rest k

/-- Go map assignment `m[k] = v`: replace the binding if present,
otherwise add it. -/
def insertKV {α : Type} : List (String × α) → String → α → List (String × α)
  | [], k, v => [(k, v)]
  | (k', v') :: rest, k, v =>
      if k' = k then (k, v) :: rest else (k', v') :: insertKV rest k v

/-- `CloudCredSecretName` (`secretannotator_controller.go:47`). -/
def CloudCredSecretName : String := "aws-creds"

/-- `CloudCredSecretNamespace` (`secretannotator_controller.go:48`). -/
def CloudCredSecretNamespace : String := "kube-system"

/-- `AnnotationKey` (`secretannotator_controller.go:50`). -/
def AnnotationKey : String := "cloudcredential.openshift.io/mode"

/-- The Go constant `MintAnnotation` (value `"mint"`),
`secretannotator_controller.go:54`.  (Renamed: the Go identifier is not
usable verbatim here.) -/
def MintValue : String := "mint"

/-- The Go constant `PassthroughAnnotation` (value `"passthrough"`),
`secretannotator_controller.go:60`. -/
def PassthroughValue : String := "passthrough"

/-- The Go constant `InsufficientAnnotation` (value `"insufficient"`),
`secretannotator_controller.go:64`. -/
def InsufficientValue : String := "insufficient"

/-- `AwsAccessKeyName` (`secretannotator_controller.go:66`). -/
def AwsAccessKeyName : String := "aws_access_key_id"

/-- `AwsSecretAccessKeyName` (`secretannotator_controller.go:67`). -/
def AwsSecretAccessKeyName : String := "aws_secret_access_key"

/-- `cloudCredSecretObjectCheck` (`secretannotator_controller.go:90-95`):
true iff the object's namespace and name equal the fixed pair. -/
def cloudCredSecretObjectCheck (secret : ObjectMeta) : Bool :=
  if secret.nsp == CloudCredSecretNamespace && secret.name == CloudCredSecretName then
    true
  else
    false

/-- `event.UpdateEvent`: carries the old and new object metadata. -/
structure UpdEvent where
  metaOld : ObjectMeta
  metaNew : ObjectMeta
deriving DecidableEq, Repr

/-- `event.CreateEvent`: carries the created object's metadata. -/
structure CrtEvent where
  meta : ObjectMeta
deriving DecidableEq, Repr

/-- `event.DeleteEvent`: carries the deleted object's metadata. -/
structure DelEvent where
  meta : ObjectMeta
deriving DecidableEq, Repr

/-- The `UpdateFunc` of the watch predicate
(`secretannotator_controller.go:106-108`): checks `e.MetaNew`. -/
def updateFunc (e : UpdEvent) : Bool := cloudCredSecretObjectCheck e.metaNew

/-- The `CreateFunc` of the watch predicate
(`secretannotator_controller.go:109-111`): checks `e.Meta`. -/
def createFunc (e : CrtEvent) : Bool := cloudCredSecretObjectCheck e.meta

/-- The `DeleteFunc` of the watch predicate
(`secretannotator_controller.go:112-114`): checks `e.Meta`. -/
def deleteFunc (e : DelEvent) : Bool := cloudCredSecretObjectCheck e.meta

/-- One collaborator call made during a reconciliation, recorded in
order.  `updateAnno v` is a call to `r.Update` performed by
`updateSecretAnnotations` with mode value `v`. -/
inductive Call where
  | infraLookup
  | buildClient (creds : CredValue) (infraName : String)
  | checkMint
  | checkPassthrough
  | updateAnno (value : String)
deriving DecidableEq, Repr

/-- The external collaborators of `ReconcileCloudCredSecret`, over an
opaque client type `C` (`ccaws.Client`): the Kubernetes `Get`,
`utils.LoadInfrastructureName`, the injected `AWSClientBuilder`,
`utils.CheckCloudCredCreation`, `utils.CheckCloudCredPassthrough`, and
the Kubernetes `Update`. -/
structure Env (C : Type) where
  getSecret : String → String → Except GoErr Secret
  loadInfrastructureName : Except GoErr String
  awsClientBuilder : CredValue → String → Except GoErr C
  checkCloudCredCreation : C → Except GoErr Bool
  checkCloudCredPassthrough : C → Except GoErr Bool
  update : Secret → Except GoErr Unit

/-- The pure mutation performed by `updateSecretAnnotations`
(`secretannotator_controller.go:211-218`): read the annotation map,
substituting an empty map when it is `nil`, set `AnnotationKey` to
`value`, and store the map back on the secret. -/
def setMode (secret : Secret) (value : String) : Secret :=
  let secretAnnot := match secret.annot with
    | none => []
    | some m => m
  { secret with annot := some (insertKV secretAnnot AnnotationKey value) }

/-- `updateSecretAnnotations` (`secretannotator_controller.go:211-221`):
mutate the secret via `setMode`, then call the collaborator `Update` on
the whole mutated object.  Returns the mutated secret, the recorded
call, and the result of `Update`. -/
def updateSecretAnnotations {C : Type} (env : Env C) (secret : Secret)
    (value : String) : Secret × List Call × Except GoErr Unit :=
  let secret := setMode secret value
  (secret, [Call.updateAnno value], env.update secret)

/-- `validateCloudCredsSecret` (`secretannotator_controller.go:155-209`),
returning the collaborator-call trace alongside the Go error result.
In the two probe-error branches the result of `updateSecretAnnotations`
is discarded, exactly as in the Go source (lines 185 and 197, where the
returned error is not assigned). -/
def validateCloudCredsSecret {C : Type} (env : Env C) (secret : Secret) :
    List Call × Except GoErr Unit :=
  match lookupKV secret.data AwsAccessKeyName with
  | none =>
      let (_, calls, res) := updateSecretAnnotations env secret InsufficientValue
      (calls, res)
  | some accessKey =>
    match lookupKV secret.data AwsSecretAccessKeyName with
    | none =>
        let (_, calls, res) := updateSecretAnnotations env secret InsufficientValue
        (calls, res)
    | some secretKey =>
      match env.loadInfrastructureName with
      | .error e => ([Call.infraLookup], .error e)
      | .ok infraName =>
        let creds : CredValue :=
          { accessKeyID := accessKey, secretAccessKey := secretKey }
        match env.awsClientBuilder creds infraName with
        | .error e =>
            ([Call.infraLookup, Call.buildClient creds infraName],
             .error (GoErr.wrap "error creating aws client" e))
        | .ok awsClient =>
          let pre := [Call.infraLookup, Call.buildClient creds infraName,
                      Call.checkMint]
          match env.checkCloudCredCreation awsClient with
          | .error e =>
              let (_, calls, _) := updateSecretAnnotations env secret InsufficientValue
              (pre ++ calls,
               .error (GoErr.wrap "failed checking create cloud creds" e))
          | .ok true =>
              let (_, calls, res) := updateSecretAnnotations env secret MintValue
              (pre ++ calls, res)
          | .ok false =>
            match env.checkCloudCredPassthrough awsClient with
            | .error e =>
                let (_, calls, _) := updateSecretAnnotations env secret InsufficientValue
                (pre ++ [Call.checkPassthrough] ++ calls,
                 .error (GoErr.wrap "failed checking passthrough cloud creds" e))
            | .ok true =>
                let (_, calls, res) := updateSecretAnnotations env secret PassthroughValue
                (pre ++ [Call.checkPassthrough] ++ calls, res)
            | .ok false =>
                let (_, calls, res) := updateSecretAnnotations env secret InsufficientValue
                (pre ++ [Call.checkPassthrough] ++ calls, res)

/-- `Reconcile` (`secretannotator_controller.go:136-153`): fetch the
secret by the request's (namespace, name); on failure return the fetch
error with no further calls, otherwise run `validateCloudCredsSecret`
and return its result (`reconcile.Result{}` is a constant and is
modelled as `Unit`). -/
def Reconcile {C : Type} (env : Env C) (nsp name : String) :
    List Call × Except GoErr Unit :=
  match env.getSecret nsp name with
  | .error e => ([], .error e)
  | .ok secret => validateCloudCredsSecret env secret

/-- Number of `updateAnno` calls (annotation writes) in a trace. -/
def countUpdates : List Call → Nat
  | [] => 0
  | .updateAnno _ :: rest => countUpdates rest + 1
  | _ :: rest => countUpdates rest

/-- The reconciliation fails before reaching a terminal classification:
the fetch fails, or (both credential fields being present) the
infrastructure-name lookup or the client construction fails. -/
def preClassificationFailure {C : Type} (env : Env C) (nsp name : String) : Bool :=
  match env.getSecret nsp name with
  | .error _ => true
  | .ok secret =>
    match lookupKV secret.data AwsAccessKeyName with
    | none => false
    | some accessKey =>
      match lookupKV secret.data AwsSecretAccessKeyName with
      | none => false
      | some secretKey =>
        match env.loadInfrastructureName with
        | .error _ => true
        | .ok infraName =>
          match env.awsClientBuilder
              { accessKeyID := accessKey, secretAccessKey := secretKey } infraName with
          | .error _ => true
          | .ok _ => false

/-! ### Helper lemmas about the association-list map operations -/

theorem lookupKV_insertKV_self {α : Type} (m : List (String × α)) (k : String) (v : α) :
    lookupKV (insertKV m k v) k = some v := by
  induction m with
  | nil => simp [insertKV, lookupKV]
  | cons p rest ih =>
    obtain ⟨k', v'⟩ := p
    by_cases h : k' = k
    · simp [insertKV, lookupKV, h]
    · simp [insertKV, lookupKV, h, ih]

theorem lookupKV_insertKV_other {α : Type} (m : List (String × α)) (k k' : String)
    (v : α) (hne : k' ≠ k) : lookupKV (insertKV m k v) k' = lookupKV m k' := by
  have hkk' : ¬ k = k' := fun h => hne h.symm
  induction m with
  | nil => simp [insertKV, lookupKV, hkk']
  | cons p rest ih =>
    obtain ⟨k0, v0⟩ := p
    by_cases h : k0 = k
    · subst h
      simp [insertKV, lookupKV, hkk']
    · simp [insertKV, lookupKV, h, ih]

/-- Annotation lookup on a secret, reading a `nil` map as empty. -/
def lookupAnno (secret : Secret) (k : String) : Option String :=
  lookupKV (match secret.annot with | none => [] | some m => m) k

/-! ### C7: the event filter -/

/-- C7: for every create, update, or delete notification, the filter
function returns true iff the notified object's namespace is
`kube-system` and its name is `aws-creds`; all three notification kinds
apply the same predicate `cloudCredSecretObjectCheck` to the notified
object's metadata (for updates, the new metadata). -/
theorem eventFilter_admits_iff_fixed_identity (m mOld : ObjectMeta) :
    (updateFunc { metaOld := mOld, metaNew := m } = true ↔
      m.nsp = "kube-system" ∧ m.name = "aws-creds") ∧
    (createFunc { meta := m } = true ↔
      m.nsp = "kube-system" ∧ m.name = "aws-creds") ∧
    (deleteFunc { meta := m } = true ↔
      m.nsp = "kube-system" ∧ m.name = "aws-creds") ∧
    updateFunc { metaOld := mOld, metaNew := m } = cloudCredSecretObjectCheck m ∧
    createFunc { meta := m } = cloudCredSecretObjectCheck m ∧
    deleteFunc { meta := m } = cloudCredSecretObjectCheck m := by
  refine ⟨?_, ?_, ?_, rfl, rfl, rfl⟩ <;>
    simp [updateFunc, createFunc, deleteFunc, cloudCredSecretObjectCheck,
      CloudCredSecretNamespace, CloudCredSecretName, Bool.and_eq_true,
      beq_iff_eq]

/-- Witness for C7 at concrete metadata: the filter admits the fixed
(kube-system, aws-creds) identity and rejects another. -/
theorem eventFilter_admits_iff_fixed_identity_witness :
    updateFunc { metaOld := { nsp := "other", name := "x" },
                 metaNew := { nsp := "kube-system", name := "aws-creds" } } = true ∧
    ¬ createFunc { meta := { nsp := "default", name := "aws-creds" } } = true := by
  constructor
  · exact (eventFilter_admits_iff_fixed_identity
      { nsp := "kube-system", name := "aws-creds" }
      { nsp := "other", name := "x" }).1.mpr ⟨rfl, rfl⟩
  · intro h
    have := (eventFilter_admits_iff_fixed_identity
      { nsp := "default", name := "aws-creds" }
      { nsp := "default", name := "aws-creds" }).2.1.mp h
    simp at this

/-! ### Concrete fixtures for witnesses -/

/-- A well-formed cloud-cred secret with both fields present. -/
def sampleSecret : Secret :=
  { nsp := "kube-system", name := "aws-creds",
    data := [("aws_access_key_id", [65, 75]), ("aws_secret_access_key", [83, 75])],
    annot := some [("team", "infra")] }

/-- A healthy environment: fetch succeeds, infra name resolves, client
builds, the mint probe answers true, writes succeed. -/
def envBase : Env Unit :=
  { getSecret := fun _ _ => .ok sampleSecret,
    loadInfrastructureName := .ok "testinfra",
    awsClientBuilder := fun _ _ => .ok (),
    checkCloudCredCreation := fun _ => .ok true,
    checkCloudCredPassthrough := fun _ => .ok false,
    update := fun _ => .ok () }

/-! ### C8: the annotation write is a read-modify-write on the whole object -/

/-- C8: `updateSecretAnnotations` reads the current annotation map
(substituting an empty map when it is absent), sets exactly
`AnnotationKey` to the computed mode, and writes the whole mutated
object back via `Update`; namespace, name, the data map, and every
annotation entry under any other key are unchanged. -/
theorem updateSecretAnnotations_frame {C : Type} (env : Env C) (s : Secret)
    (v : String) :
    (setMode s v).nsp = s.nsp ∧
    (setMode s v).name = s.name ∧
    (setMode s v).data = s.data ∧
    lookupAnno (setMode s v) AnnotationKey = some v ∧
    (∀ k, k ≠ AnnotationKey → lookupAnno (setMode s v) k = lookupAnno s k) ∧
    updateSecretAnnotations env s v =
      (setMode s v, [Call.updateAnno v], env.update (setMode s v)) := by
  refine ⟨rfl, rfl, rfl, ?_, ?_, rfl⟩
  · cases h : s.annot <;>
      simp [setMode, lookupAnno, h, lookupKV_insertKV_self]
  · intro k hk
    cases h : s.annot <;>
      simp [setMode, lookupAnno, h, lookupKV_insertKV_other _ _ _ _ hk]

/-- Witness for C8 at a concrete secret: the fixed key gets the mode and
the unrelated "team" entry is untouched. -/
theorem updateSecretAnnotations_frame_witness :
    lookupAnno (setMode sampleSecret "mint") AnnotationKey = some "mint" ∧
    lookupAnno (setMode sampleSecret "mint") "team" = lookupAnno sampleSecret "team" := by
  have h := updateSecretAnnotations_frame envBase sampleSecret "mint"
  exact ⟨h.2.2.2.1, h.2.2.2.2.1 "team" (by decide)⟩

/-! ### C1: CanMint true short-circuits to Mint -/

/-- C1: whenever the reconciliation reaches the mint probe and the probe
returns true with no error, the mode written by the (successful)
annotation write is `mint`, the reconciliation returns success, and the
passthrough probe is never invoked. -/
theorem canMint_true_writes_mint_and_skips_passthrough {C : Type} (env : Env C)
    (nsp name : String) (s : Secret) (ak sk : Bytes) (infra : String) (c : C)
    (hget : env.getSecret nsp name = .ok s)
    (hak : lookupKV s.data AwsAccessKeyName = some ak)
    (hsk : lookupKV s.data AwsSecretAccessKeyName = some sk)
    (hinf : env.loadInfrastructureName = .ok infra)
    (hcli : env.awsClientBuilder { accessKeyID := ak, secretAccessKey := sk } infra = .ok c)
    (hmint : env.checkCloudCredCreation c = .ok true)
    (hupd : env.update (setMode s MintValue) = .ok ()) :
    Reconcile env nsp name =
      ([Call.infraLookup,
        Call.buildClient { accessKeyID := ak, secretAccessKey := sk } infra,
        Call.checkMint, Call.updateAnno MintValue], .ok ()) ∧
    Call.checkPassthrough ∉ (Reconcile env nsp name).1 := by
  have hmain : Reconcile env nsp name =
      ([Call.infraLookup,
        Call.buildClient { accessKeyID := ak, secretAccessKey := sk } infra,
        Call.checkMint, Call.updateAnno MintValue], .ok ()) := by
    simp [Reconcile, hget, validateCloudCredsSecret, hak, hsk, hinf, hcli, hmint,
      updateSecretAnnotations, hupd]
  refine ⟨hmain, ?_⟩
  simp [hmain]

/-- Witness for C1: in the healthy environment the reconciliation writes
`mint`, succeeds, and never calls the passthrough probe. -/
theorem canMint_true_writes_mint_and_skips_passthrough_witness :
    Reconcile envBase "kube-system" "aws-creds" =
      ([Call.infraLookup,
        Call.buildClient { accessKeyID := [65, 75], secretAccessKey := [83, 75] } "testinfra",
        Call.checkMint, Call.updateAnno MintValue], .ok ()) ∧
    Call.checkPassthrough ∉ (Reconcile envBase "kube-system" "aws-creds").1 :=
  canMint_true_writes_mint_and_skips_passthrough envBase "kube-system" "aws-creds"
    sampleSecret [65, 75] [83, 75] "testinfra" () rfl (by decide) (by decide)
    rfl rfl rfl rfl

/-! ### C2: a missing credential field classifies as Insufficient with no probing -/

/-- C2: when the fetched secret lacks either of the two required
credential fields, the reconciliation performs the (successful)
Insufficient annotation write, returns no error, and performs no
infra-name lookup, no client construction, and neither probe. -/
theorem missing_field_insufficient_no_probing {C : Type} (env : Env C)
    (nsp name : String) (s : Secret)
    (hget : env.getSecret nsp name = .ok s)
    (hmiss : lookupKV s.data AwsAccessKeyName = none ∨
             lookupKV s.data AwsSecretAccessKeyName = none)
    (hupd : env.update (setMode s InsufficientValue) = .ok ()) :
    Reconcile env nsp name = ([Call.updateAnno InsufficientValue], .ok ()) ∧
    Call.infraLookup ∉ (Reconcile env nsp name).1 ∧
    (∀ creds i, Call.buildClient creds i ∉ (Reconcile env nsp name).1) ∧
    Call.checkMint ∉ (Reconcile env nsp name).1 ∧
    Call.checkPassthrough ∉ (Reconcile env nsp name).1 := by
  have hmain : Reconcile env nsp name = ([Call.updateAnno InsufficientValue], .ok ()) := by
    rcases hmiss with h | h
    · simp [Reconcile, hget, validateCloudCredsSecret, h,
        updateSecretAnnotations, hupd]
    · cases hak : lookupKV s.data AwsAccessKeyName with
      | none =>
          simp [Reconcile, hget, validateCloudCredsSecret, hak,
            updateSecretAnnotations, hupd]
      | some ak =>
          simp [Reconcile, hget, validateCloudCredsSecret, hak, h,
            updateSecretAnnotations, hupd]
  refine ⟨hmain, ?_, ?_, ?_, ?_⟩ <;> simp [hmain]

/-- A secret missing the `aws_secret_access_key` field. -/
def missingKeySecret : Secret :=
  { nsp := "kube-system", name := "aws-creds",
    data := [("aws_access_key_id", [65, 75])],
    annot := none }

/-- Environment whose secret lacks a required field. -/
def envMissingField : Env Unit :=
  { envBase with getSecret := fun _ _ => .ok missingKeySecret }

/-- Witness for C2: a secret without `aws_secret_access_key` is
classified `insufficient` with success and zero probing calls. -/
theorem missing_field_insufficient_no_probing_witness :
    Reconcile envMissingField "kube-system" "aws-creds" =
      ([Call.updateAnno InsufficientValue], .ok ()) ∧
    Call.infraLookup ∉ (Reconcile envMissingField "kube-system" "aws-creds").1 ∧
    (∀ creds i, Call.buildClient creds i ∉
      (Reconcile envMissingField "kube-system" "aws-creds").1) ∧
    Call.checkMint ∉ (Reconcile envMissingField "kube-system" "aws-creds").1 ∧
    Call.checkPassthrough ∉ (Reconcile envMissingField "kube-system" "aws-creds").1 :=
  missing_field_insufficient_no_probing envMissingField "kube-system" "aws-creds"
    missingKeySecret rfl (Or.inr (by decide)) rfl

/-! ### C5: both probes false yields Insufficient with success -/

/-- C5: when the mint probe returns false with no error and the
passthrough probe returns false with no error, the (successful)
annotation write carries `insufficient` and the reconciliation returns
no error. -/
theorem both_probes_false_insufficient_success {C : Type} (env : Env C)
    (nsp name : String) (s : Secret) (ak sk : Bytes) (infra : String) (c : C)
    (hget : env.getSecret nsp name = .ok s)
    (hak : lookupKV s.data AwsAccessKeyName = some ak)
    (hsk : lookupKV s.data AwsSecretAccessKeyName = some sk)
    (hinf : env.loadInfrastructureName = .ok infra)
    (hcli : env.awsClientBuilder { accessKeyID := ak, secretAccessKey := sk } infra = .ok c)
    (hmint : env.checkCloudCredCreation c = .ok false)
    (hpass : env.checkCloudCredPassthrough c = .ok false)
    (hupd : env.update (setMode s InsufficientValue) = .ok ()) :
    Reconcile env nsp name =
      ([Call.infraLookup,
        Call.buildClient { accessKeyID := ak, secretAccessKey := sk } infra,
        Call.checkMint, Call.checkPassthrough,
        Call.updateAnno InsufficientValue], .ok ()) := by
  simp [Reconcile, hget, validateCloudCredsSecret, hak, hsk, hinf, hcli, hmint,
    hpass, updateSecretAnnotations, hupd]

/-- Environment in which both probes answer false without error. -/
def envBothFalse : Env Unit :=
  { envBase with checkCloudCredCreation := fun _ => .ok false,
                 checkCloudCredPassthrough := fun _ => .ok false }

/-- Witness for C5: with both probes answering false the run writes
`insufficient` and succeeds. -/
theorem both_probes_false_insufficient_success_witness :
    Reconcile envBothFalse "kube-system" "aws-creds" =
      ([Call.infraLookup,
        Call.buildClient { accessKeyID := [65, 75], secretAccessKey := [83, 75] } "testinfra",
        Call.checkMint, Call.checkPassthrough,
        Call.updateAnno InsufficientValue], .ok ()) :=
  both_probes_false_insufficient_success envBothFalse "kube-system" "aws-creds"
    sampleSecret [65, 75] [83, 75] "testinfra" () rfl (by decide) (by decide)
    rfl rfl rfl rfl rfl

/-! ### C3: a probe error writes Insufficient and propagates the probe error -/

theorem GoErr.contains_self (e : GoErr) : e.contains e = true := by
  cases e <;> simp [GoErr.contains]

/-- C3: if the mint probe errors, or the mint probe returns false and
the passthrough probe errors, the Insufficient annotation write is
invoked and the reconciliation's error result is the probe's error
(wrapped with a context message; the wrapped result contains the
original probe error). -/
theorem probe_error_insufficient_and_error_propagated {C : Type} (env : Env C)
    (nsp name : String) (s : Secret) (ak sk : Bytes) (infra : String) (c : C)
    (hget : env.getSecret nsp name = .ok s)
    (hak : lookupKV s.data AwsAccessKeyName = some ak)
    (hsk : lookupKV s.data AwsSecretAccessKeyName = some sk)
    (hinf : env.loadInfrastructureName = .ok infra)
    (hcli : env.awsClientBuilder { accessKeyID := ak, secretAccessKey := sk } infra = .ok c) :
    (∀ e, env.checkCloudCredCreation c = .error e →
      Reconcile env nsp name =
        ([Call.infraLookup,
          Call.buildClient { accessKeyID := ak, secretAccessKey := sk } infra,
          Call.checkMint, Call.updateAnno InsufficientValue],
         .error (GoErr.wrap "failed checking create cloud creds" e)) ∧
      (GoErr.wrap "failed checking create cloud creds" e).contains e = true) ∧
    (∀ e, env.checkCloudCredCreation c = .ok false →
          env.checkCloudCredPassthrough c = .error e →
      Reconcile env nsp name =
        ([Call.infraLookup,
          Call.buildClient { accessKeyID := ak, secretAccessKey := sk } infra,
          Call.checkMint, Call.checkPassthrough,
          Call.updateAnno InsufficientValue],
         .error (GoErr.wrap "failed checking passthrough cloud creds" e)) ∧
      (GoErr.wrap "failed checking passthrough cloud creds" e).contains e = true) := by
  constructor
  · intro e hmint
    refine ⟨?_, by simp [GoErr.contains, GoErr.contains_self]⟩
    simp [Reconcile, hget, validateCloudCredsSecret, hak, hsk, hinf, hcli, hmint,
      updateSecretAnnotations]
  · intro e hmint hpass
    refine ⟨?_, by simp [GoErr.contains, GoErr.contains_self]⟩
    simp [Reconcile, hget, validateCloudCredsSecret, hak, hsk, hinf, hcli, hmint,
      hpass, updateSecretAnnotations]

/-- Environment whose mint probe fails with an error. -/
def envMintErr : Env Unit :=
  { envBase with checkCloudCredCreation := fun _ => .error (.base "probe boom") }

/-- Witness for C3: with a failing mint probe the run invokes the
Insufficient write and reports the wrapped probe error. -/
theorem probe_error_insufficient_and_error_propagated_witness :
    Reconcile envMintErr "kube-system" "aws-creds" =
      ([Call.infraLookup,
        Call.buildClient { accessKeyID := [65, 75], secretAccessKey := [83, 75] } "testinfra",
        Call.checkMint, Call.updateAnno InsufficientValue],
       .error (GoErr.wrap "failed checking create cloud creds" (.base "probe boom"))) ∧
    (GoErr.wrap "failed checking create cloud creds" (.base "probe boom")).contains
      (.base "probe boom") = true :=
  (probe_error_insufficient_and_error_propagated envMintErr "kube-system" "aws-creds"
    sampleSecret [65, 75] [83, 75] "testinfra" () rfl (by decide) (by decide)
    rfl rfl).1 (.base "probe boom") rfl

/-! ### C4: error propagation, and the probe-error-branch write failure -/

instance {ε α : Type} [DecidableEq ε] [DecidableEq α] : DecidableEq (Except ε α) := by
  intro a b
  cases a <;> cases b
  case error.error e e' => exact decidable_of_iff (e = e') (by simp)
  case ok.ok a a' => exact decidable_of_iff (a = a') (by simp)
  all_goals exact isFalse (by simp)

/-- Environment in which the mint probe errors and the annotation write
also fails. -/
def envProbeAndWriteFail : Env Unit :=
  { envBase with
    checkCloudCredCreation := fun _ => .error (.base "probe boom"),
    update := fun _ => .error (.base "write boom") }

/-- Environment in which the mint probe answers true but the annotation
write fails. -/
def envWriteFailMint : Env Unit :=
  { envBase with update := fun _ => .error (.base "write boom") }

/-- Counterexample for C4 as stated: with the mint probe failing
(`probe boom`) and the annotation write failing too (`write boom`), the
write is invoked (its call is in the trace) and fails, yet the
reconciliation's error result is only the wrapped probe error, which
does not contain the write failure — the write failure is silently
discarded (`secretannotator_controller.go:185`, where the return value
of `updateSecretAnnotations` is not assigned). -/
theorem write_failure_in_probe_error_branch_swallowed :
    Call.updateAnno InsufficientValue ∈
      (Reconcile envProbeAndWriteFail "kube-system" "aws-creds").1 ∧
    envProbeAndWriteFail.update (setMode sampleSecret InsufficientValue) =
      .error (.base "write boom") ∧
    (Reconcile envProbeAndWriteFail "kube-system" "aws-creds").2 =
      .error (GoErr.wrap "failed checking create cloud creds" (.base "probe boom")) ∧
    (GoErr.wrap "failed checking create cloud creds" (GoErr.base "probe boom")).contains
      (GoErr.base "write boom") = false := by
  decide

/-- C4 amended: every collaborator failure causes the reconciliation to
return an error.  Fetch and infra-lookup failures are returned as-is;
client-construction and probe failures are returned wrapped with
context; an annotation-write failure is returned in every terminal
classification branch except the two probe-error branches, where the
write's own failure is discarded and the wrapped probe error is what is
surfaced (the write-failure conjuncts for the probe-error branches place
no condition on the write's result, exhibiting that it cannot influence
the returned error). -/
theorem collaborator_failures_always_surfaced {C : Type} (env : Env C)
    (nsp name : String) :
    (∀ e, env.getSecret nsp name = .error e →
      (Reconcile env nsp name).2 = .error e) ∧
    (∀ s ak sk e, env.getSecret nsp name = .ok s →
      lookupKV s.data AwsAccessKeyName = some ak →
      lookupKV s.data AwsSecretAccessKeyName = some sk →
      env.loadInfrastructureName = .error e →
      (Reconcile env nsp name).2 = .error e) ∧
    (∀ s ak sk infra e, env.getSecret nsp name = .ok s →
      lookupKV s.data AwsAccessKeyName = some ak →
      lookupKV s.data AwsSecretAccessKeyName = some sk →
      env.loadInfrastructureName = .ok infra →
      env.awsClientBuilder { accessKeyID := ak, secretAccessKey := sk } infra = .error e →
      (Reconcile env nsp name).2 = .error (GoErr.wrap "error creating aws client" e)) ∧
    (∀ s ew, env.getSecret nsp name = .ok s →
      (lookupKV s.data AwsAccessKeyName = none ∨
       lookupKV s.data AwsSecretAccessKeyName = none) →
      env.update (setMode s InsufficientValue) = .error ew →
      (Reconcile env nsp name).2 = .error ew) ∧
    (∀ s ak sk infra c ew, env.getSecret nsp name = .ok s →
      lookupKV s.data AwsAccessKeyName = some ak →
      lookupKV s.data AwsSecretAccessKeyName = some sk →
      env.loadInfrastructureName = .ok infra →
      env.awsClientBuilder { accessKeyID := ak, secretAccessKey := sk } infra = .ok c →
      env.checkCloudCredCreation c = .ok true →
      env.update (setMode s MintValue) = .error ew →
      (Reconcile env nsp name).2 = .error ew) ∧
    (∀ s ak sk infra c ew, env.getSecret nsp name = .ok s →
      lookupKV s.data AwsAccessKeyName = some ak →
      lookupKV s.data AwsSecretAccessKeyName = some sk →
      env.loadInfrastructureName = .ok infra →
      env.awsClientBuilder { accessKeyID := ak, secretAccessKey := sk } infra = .ok c →
      env.checkCloudCredCreation c = .ok false →
      env.checkCloudCredPassthrough c = .ok true →
      env.update (setMode s PassthroughValue) = .error ew →
      (Reconcile env nsp name).2 = .error ew) ∧
    (∀ s ak sk infra c ew, env.getSecret nsp name = .ok s →
      lookupKV s.data AwsAccessKeyName = some ak →
      lookupKV s.data AwsSecretAccessKeyName = some sk →
      env.loadInfrastructureName = .ok infra →
      env.awsClientBuilder { accessKeyID := ak, secretAccessKey := sk } infra = .ok c →
      env.checkCloudCredCreation c = .ok false →
      env.checkCloudCredPassthrough c = .ok false →
      env.update (setMode s InsufficientValue) = .error ew →
      (Reconcile env nsp name).2 = .error ew) ∧
    (∀ s ak sk infra c ep, env.getSecret nsp name = .ok s →
      lookupKV s.data AwsAccessKeyName = some ak →
      lookupKV s.data AwsSecretAccessKeyName = some sk →
      env.loadInfrastructureName = .ok infra →
      env.awsClientBuilder { accessKeyID := ak, secretAccessKey := sk } infra = .ok c →
      env.checkCloudCredCreation c = .error ep →
      (Reconcile env nsp name).2 =
        .error (GoErr.wrap "failed checking create cloud creds" ep)) ∧
    (∀ s ak sk infra c ep, env.getSecret nsp name = .ok s →
      lookupKV s.data AwsAccessKeyName = some ak →
      lookupKV s.data AwsSecretAccessKeyName = some sk →
      env.loadInfrastructureName = .ok infra →
      env.awsClientBuilder { accessKeyID := ak, secretAccessKey := sk } infra = .ok c →
      env.checkCloudCredCreation c = .ok false →
      env.checkCloudCredPassthrough c = .error ep →
      (Reconcile env nsp name).2 =
        .error (GoErr.wrap "failed checking passthrough cloud creds" ep)) := by
  refine ⟨?_, ?_, ?_, ?_, ?_, ?_, ?_, ?_, ?_⟩
  · intro e hget
    simp [Reconcile, hget]
  · intro s ak sk e hget hak hsk hinf
    simp [Reconcile, hget, validateCloudCredsSecret, hak, hsk, hinf]
  · intro s ak sk infra e hget hak hsk hinf hcli
    simp [Reconcile, hget, validateCloudCredsSecret, hak, hsk, hinf, hcli]
  · intro s ew hget hmiss hupd
    rcases hmiss with h | h
    · simp [Reconcile, hget, validateCloudCredsSecret, h,
        updateSecretAnnotations, hupd]
    · cases hak : lookupKV s.data AwsAccessKeyName with
      | none =>
          simp [Reconcile, hget, validateCloudCredsSecret, hak,
            updateSecretAnnotations, hupd]
      | some ak =>
          simp [Reconcile, hget, validateCloudCredsSecret, hak, h,
            updateSecretAnnotations, hupd]
  · intro s ak sk infra c ew hget hak hsk hinf hcli hmint hupd
    simp [Reconcile, hget, validateCloudCredsSecret, hak, hsk, hinf, hcli, hmint,
      updateSecretAnnotations, hupd]
  · intro s ak sk infra c ew hget hak hsk hinf hcli hmint hpass hupd
    simp [Reconcile, hget, validateCloudCredsSecret, hak, hsk, hinf, hcli, hmint,
      hpass, updateSecretAnnotations, hupd]
  · intro s ak sk infra c ew hget hak hsk hinf hcli hmint hpass hupd
    simp [Reconcile, hget, validateCloudCredsSecret, hak, hsk, hinf, hcli, hmint,
      hpass, updateSecretAnnotations, hupd]
  · intro s ak sk infra c ep hget hak hsk hinf hcli hmint
    simp [Reconcile, hget, validateCloudCredsSecret, hak, hsk, hinf, hcli, hmint,
      updateSecretAnnotations]
  · intro s ak sk infra c ep hget hak hsk hinf hcli hmint hpass
    simp [Reconcile, hget, validateCloudCredsSecret, hak, hsk, hinf, hcli, hmint,
      hpass, updateSecretAnnotations]

/-- Witness for the amended C4: a failing annotation write on the
mint-true branch is surfaced as the reconciliation's error. -/
theorem collaborator_failures_always_surfaced_witness :
    (Reconcile envWriteFailMint "kube-system" "aws-creds").2 =
      .error (.base "write boom") :=
  (collaborator_failures_always_surfaced envWriteFailMint
      "kube-system" "aws-creds").2.2.2.2.1
    sampleSecret [65, 75] [83, 75] "testinfra" () (.base "write boom")
    rfl (by decide) (by decide) rfl rfl rfl rfl

/-! ### C6: exactly one annotation write per terminal classification -/

/-- C6: a reconciliation performs exactly one annotation write when it
reaches a terminal classification and zero annotation writes when it
fails before classification (fetch failure, infra-name lookup failure,
or client-construction failure); in the latter case the failure is
returned as an error and, no write having been issued, the persisted
object is untouched. -/
theorem exactly_one_write_per_classification {C : Type} (env : Env C)
    (nsp name : String) :
    countUpdates (Reconcile env nsp name).1 =
      (if preClassificationFailure env nsp name then 0 else 1) ∧
    (preClassificationFailure env nsp name = true →
      (∃ e, (Reconcile env nsp name).2 = .error e) ∧
      countUpdates (Reconcile env nsp name).1 = 0) := by
  cases hget : env.getSecret nsp name with
  | error e =>
      simp [Reconcile, preClassificationFailure, hget, countUpdates]
  | ok s =>
    cases hak : lookupKV s.data AwsAccessKeyName with
    | none =>
        simp [Reconcile, preClassificationFailure, validateCloudCredsSecret,
          updateSecretAnnotations, countUpdates, hget, hak]
    | some ak =>
      cases hsk : lookupKV s.data AwsSecretAccessKeyName with
      | none =>
          simp [Reconcile, preClassificationFailure, validateCloudCredsSecret,
            updateSecretAnnotations, countUpdates, hget, hak, hsk]
      | some sk =>
        cases hinf : env.loadInfrastructureName with
        | error e =>
            simp [Reconcile, preClassificationFailure, validateCloudCredsSecret,
              countUpdates, hget, hak, hsk, hinf]
        | ok infra =>
          cases hcli : env.awsClientBuilder
              { accessKeyID := ak, secretAccessKey := sk } infra with
          | error e =>
              simp [Reconcile, preClassificationFailure, validateCloudCredsSecret,
                countUpdates, hget, hak, hsk, hinf, hcli]
          | ok c =>
            cases hmint : env.checkCloudCredCreation c with
            | error e =>
                simp [Reconcile, preClassificationFailure, validateCloudCredsSecret,
                  updateSecretAnnotations, countUpdates, hget, hak, hsk, hinf,
                  hcli, hmint]
            | ok b =>
              cases b with
              | true =>
                  simp [Reconcile, preClassificationFailure, validateCloudCredsSecret,
                    updateSecretAnnotations, countUpdates, hget, hak, hsk, hinf,
                    hcli, hmint]
              | false =>
                cases hpass : env.checkCloudCredPassthrough c with
                | error e =>
                    simp [Reconcile, preClassificationFailure, validateCloudCredsSecret,
                      updateSecretAnnotations, countUpdates, hget, hak, hsk, hinf,
                      hcli, hmint, hpass]
                | ok b' =>
                    cases b' <;>
                      simp [Reconcile, preClassificationFailure, validateCloudCredsSecret,
                        updateSecretAnnotations, countUpdates, hget, hak, hsk, hinf,
                        hcli, hmint, hpass]

/-- Environment whose infra-name lookup fails. -/
def envInfraErr : Env Unit :=
  { envBase with loadInfrastructureName := .error (.base "infra boom") }

/-- Witness for C6: one write in the healthy run; zero writes and a
returned error when the infra-name lookup fails. -/
theorem exactly_one_write_per_classification_witness :
    countUpdates (Reconcile envBase "kube-system" "aws-creds").1 = 1 ∧
    ((∃ e, (Reconcile envInfraErr "kube-system" "aws-creds").2 = .error e) ∧
      countUpdates (Reconcile envInfraErr "kube-system" "aws-creds").1 = 0) := by
  constructor
  · have h := (exactly_one_write_per_classification envBase
      "kube-system" "aws-creds").1
    simpa using h
  · exact (exactly_one_write_per_classification envInfraErr
      "kube-system" "aws-creds").2 (by decide)

/-! ### C9: only the three mode literals are ever written -/

/-- C9: every value passed to the annotation write by any reconciliation
path is one of the three literal strings `mint`, `passthrough`,
`insufficient`. -/
theorem written_mode_is_one_of_three {C : Type} (env : Env C)
    (nsp name v : String)
    (hv : Call.updateAnno v ∈ (Reconcile env nsp name).1) :
    v = MintValue ∨ v = PassthroughValue ∨ v = InsufficientValue := by
  cases hget : env.getSecret nsp name with
  | error e => simp [Reconcile, hget] at hv
  | ok s =>
    cases hak : lookupKV s.data AwsAccessKeyName with
    | none =>
        simp [Reconcile, hget, validateCloudCredsSecret, hak,
          updateSecretAnnotations] at hv
        exact Or.inr (Or.inr hv)
    | some ak =>
      cases hsk : lookupKV s.data AwsSecretAccessKeyName with
      | none =>
          simp [Reconcile, hget, validateCloudCredsSecret, hak, hsk,
            updateSecretAnnotations] at hv
          exact Or.inr (Or.inr hv)
      | some sk =>
        cases hinf : env.loadInfrastructureName with
        | error e =>
            simp [Reconcile, hget, validateCloudCredsSecret, hak, hsk, hinf] at hv
        | ok infra =>
          cases hcli : env.awsClientBuilder
              { accessKeyID := ak, secretAccessKey := sk } infra with
          | error e =>
              simp [Reconcile, hget, validateCloudCredsSecret, hak, hsk, hinf,
                hcli] at hv
          | ok c =>
            cases hmint : env.checkCloudCredCreation c with
            | error e =>
                simp [Reconcile, hget, validateCloudCredsSecret, hak, hsk, hinf,
                  hcli, hmint, updateSecretAnnotations] at hv
                exact Or.inr (Or.inr hv)
            | ok b =>
              cases b with
              | true =>
                  simp [Reconcile, hget, validateCloudCredsSecret, hak, hsk, hinf,
                    hcli, hmint, updateSecretAnnotations] at hv
                  exact Or.inl hv
              | false =>
                cases hpass : env.checkCloudCredPassthrough c with
                | error e =>
                    simp [Reconcile, hget, validateCloudCredsSecret, hak, hsk,
                      hinf, hcli, hmint, hpass, updateSecretAnnotations] at hv
                    exact Or.inr (Or.inr hv)
                | ok b' =>
                  cases b' with
                  | true =>
                      simp [Reconcile, hget, validateCloudCredsSecret, hak, hsk,
                        hinf, hcli, hmint, hpass, updateSecretAnnotations] at hv
                      exact Or.inr (Or.inl hv)
                  | false =>
                      simp [Reconcile, hget, validateCloudCredsSecret, hak, hsk,
                        hinf, hcli, hmint, hpass, updateSecretAnnotations] at hv
                      exact Or.inr (Or.inr hv)

/-- Witness for C9: the value written in the healthy run is one of the
three literals. -/
theorem written_mode_is_one_of_three_witness :
    "mint" = MintValue ∨ "mint" = PassthroughValue ∨ "mint" = InsufficientValue :=
  written_mode_is_one_of_three envBase "kube-system" "aws-creds" "mint" (by decide)

/-! ### C10: field validation checks presence, not non-emptiness -/

/-- A secret whose two credential fields are present but hold empty byte
strings, alongside an unrelated data entry and an existing annotation. -/
def emptyValSecret : Secret :=
  { nsp := "kube-system", name := "aws-creds",
    data := [("extra", [1]), ("aws_access_key_id", []),
             ("aws_secret_access_key", [])],
    annot := some [("team", "infra")] }

/-- C10: for every secret whose two required keys are present but hold
empty byte strings, validation does not classify the secret as
Insufficient: the call trace starts with the infra-name lookup followed
by the client builder invoked with the two empty values, and whenever
the builder succeeds the mint probe is invoked next — the run proceeds
to probing with the empty values. -/
theorem empty_values_pass_field_validation {C : Type} (env : Env C)
    (s : Secret) (infra : String)
    (hak : lookupKV s.data AwsAccessKeyName = some ([] : Bytes))
    (hsk : lookupKV s.data AwsSecretAccessKeyName = some ([] : Bytes))
    (hinf : env.loadInfrastructureName = .ok infra) :
    (∃ rest, (validateCloudCredsSecret env s).1 =
      Call.infraLookup ::
        Call.buildClient { accessKeyID := [], secretAccessKey := [] } infra :: rest) ∧
    (∀ c, env.awsClientBuilder { accessKeyID := [], secretAccessKey := [] } infra = .ok c →
      ∃ rest, (validateCloudCredsSecret env s).1 =
        Call.infraLookup ::
          Call.buildClient { accessKeyID := [], secretAccessKey := [] } infra ::
            Call.checkMint :: rest) := by
  have hmain : ∀ c,
      env.awsClientBuilder { accessKeyID := [], secretAccessKey := [] } infra = .ok c →
      ∃ rest, (validateCloudCredsSecret env s).1 =
        Call.infraLookup ::
          Call.buildClient { accessKeyID := [], secretAccessKey := [] } infra ::
            Call.checkMint :: rest := by
    intro c hcli
    cases hmint : env.checkCloudCredCreation c with
    | error e =>
        exact ⟨[Call.updateAnno InsufficientValue], by
          simp [validateCloudCredsSecret, hak, hsk, hinf, hcli, hmint,
            updateSecretAnnotations]⟩
    | ok b =>
      cases b with
      | true =>
          exact ⟨[Call.updateAnno MintValue], by
            simp [validateCloudCredsSecret, hak, hsk, hinf, hcli, hmint,
              updateSecretAnnotations]⟩
      | false =>
        cases hpass : env.checkCloudCredPassthrough c with
        | error e =>
            exact ⟨[Call.checkPassthrough, Call.updateAnno InsufficientValue], by
              simp [validateCloudCredsSecret, hak, hsk, hinf, hcli, hmint, hpass,
                updateSecretAnnotations]⟩
        | ok b' =>
          cases b' with
          | true =>
              exact ⟨[Call.checkPassthrough, Call.updateAnno PassthroughValue], by
                simp [validateCloudCredsSecret, hak, hsk, hinf, hcli, hmint, hpass,
                  updateSecretAnnotations]⟩
          | false =>
              exact ⟨[Call.checkPassthrough, Call.updateAnno InsufficientValue], by
                simp [validateCloudCredsSecret, hak, hsk, hinf, hcli, hmint, hpass,
                  updateSecretAnnotations]⟩
  refine ⟨?_, hmain⟩
  cases hcli : env.awsClientBuilder
      { accessKeyID := [], secretAccessKey := [] } infra with
  | error e =>
      exact ⟨[], by simp [validateCloudCredsSecret, hak, hsk, hinf, hcli]⟩
  | ok c =>
    obtain ⟨rest, hrest⟩ := hmain c hcli
    exact ⟨Call.checkMint :: rest, hrest⟩

/-- Witness for C10: in the healthy environment a secret with extra data
and annotations but empty credential values reaches the infra-name
lookup, the client builder receives the empty pair, and the mint probe
runs. -/
theorem empty_values_pass_field_validation_witness :
    (∃ rest, (validateCloudCredsSecret envBase emptyValSecret).1 =
      Call.infraLookup ::
        Call.buildClient { accessKeyID := [], secretAccessKey := [] } "testinfra" :: rest) ∧
    (∃ rest, (validateCloudCredsSecret envBase emptyValSecret).1 =
      Call.infraLookup ::
        Call.buildClient { accessKeyID := [], secretAccessKey := [] } "testinfra" ::
          Call.checkMint :: rest) :=
  ⟨(empty_values_pass_field_validation envBase emptyValSecret "testinfra"
      (by decide) (by decide) rfl).1,
   (empty_values_pass_field_validation envBase emptyValSecret "testinfra"
      (by decide) (by decide) rfl).2 () rfl⟩
